import Mathlib

/-!
Verification of the CertiTrack Test Validation & Certificate Lifecycle Engine.

The definitions below are a shallow embedding of the Python backend under
`backend/app`: the result validation pipeline (`services/test_service.py`),
the certificate model and its derived validity facts
(`models/certificate.py`), the certificate issuance, revocation and public
verification routes (`api/routes/certificates.py`), the test routes
(`api/routes/tests.py`), and the time-bucketed numbering service
(`services/certificate_service.py`).

Machine reals (Python floats) are modelled as exact rationals; calendar
dates as integers counting days, with `date.today()` passed explicitly as a
`today` parameter.  Python truthiness (`x or default`) is modelled by
`pyOrQ` / `pyOrStr`, which also replace a zero number or empty string by the
default, exactly as Python does.  The human-readable `message` strings of
the validation details are omitted; only each check's `status` field is
kept, which is all the aggregation logic of the source reads.
-/

set_option allowUnsafeReducibility true in
attribute [semireducible] Rat.add Rat.mul Rat.inv Rat.sub Rat.div

namespace CertiTrack

/-- Status of a certificate, from `CertificateStatus` in
`app/models/certificate.py`. -/
inductive CertificateStatus
  | draft
  | issued
  | expired
  | revoked
  | superseded
  deriving DecidableEq

/-- Status of a test, from `TestStatus` in `app/models/test.py`. -/
inductive TestStatus
  | scheduled
  | in_progress
  | completed
  | cancelled
  deriving DecidableEq

/-- Result of a test, from `TestResult` in `app/models/test.py`. -/
inductive TestResult
  | pending
  | pass
  | fail
  | conditional
  deriving DecidableEq

/-- Status of one validation check: the `"pass"`, `"fail"` and
`"conditional"` strings stored in the `status` field of each entry of
`details` by `validate_test_result`. -/
inductive CheckStatus
  | pass
  | fail
  | conditional
  deriving DecidableEq

/-- Keys of the `measured_values` JSON mapping that
`validate_test_result` reads.  A `none` field models an absent key. -/
structure MeasuredValues where
  deflection : Option ℚ
  max_deflection : Option ℚ
  permanent_deformation : Option ℚ
  max_permanent_deformation : Option ℚ
  brake_test : Option Bool
  indicator_accuracy : Option ℚ
  accuracy_tolerance : Option ℚ
  deriving DecidableEq

/-- The empty `measured_values` mapping (no keys present). -/
def emptyMeasured : MeasuredValues :=
  { deflection := none
    max_deflection := none
    permanent_deformation := none
    max_permanent_deformation := none
    brake_test := none
    indicator_accuracy := none
    accuracy_tolerance := none }

/-- The fields of the `Test` model (`app/models/test.py`) that the routes
and the validation engine read or write. -/
structure Test where
  test_number : String
  status : TestStatus
  result : TestResult
  safe_working_load : Option ℚ
  test_load : Option ℚ
  test_load_percentage : Option ℚ
  measured_values : Option MeasuredValues
  defects_found : Option String
  is_validated : Bool
  validated_by : Option String
  deriving DecidableEq

/-- Python `x or d` on an optional number: `None` and `0` are falsy, so both
give the default. -/
def pyOrQ (x : Option ℚ) (d : ℚ) : ℚ :=
  match x with
  | none => d
  | some v => if v = 0 then d else v

/-- Python `x or d` on an optional string: `None` and `""` are falsy. -/
def pyOrStr (x : Option String) (d : String) : String :=
  match x with
  | none => d
  | some s => if s = "" then d else s

/-- Python `test.measured_values or {}` (an absent or empty mapping becomes
the empty mapping). -/
def measuredVals (t : Test) : MeasuredValues :=
  match t.measured_values with
  | none => emptyMeasured
  | some m => m

/-- Python `s.strip()` as a character list: drop leading and trailing
whitespace. -/
def pyStrip (s : String) : List Char :=
  ((s.data.dropWhile Char.isWhitespace).reverse.dropWhile Char.isWhitespace).reverse

/-- Python `test.defects_found and len(test.defects_found.strip()) > 0`:
true exactly when a defects string is present and non-blank. -/
def defectsNonEmpty (t : Test) : Bool :=
  match t.defects_found with
  | none => false
  | some s => decide (0 < (pyStrip s).length)

/-- Check 1 of `validate_test_result`: the applied test load must reach
`swl * (test_load_percentage or 125) / 100 * 0.95` (5% tolerance). -/
def loadCheck (t : Test) : CheckStatus :=
  let swl := pyOrQ t.safe_working_load 0
  let test_load := pyOrQ t.test_load 0
  let expected_test_load := swl * pyOrQ t.test_load_percentage 125 / 100
  if expected_test_load * (95 / 100 : ℚ) ≤ test_load then .pass else .fail

/-- Check 2: deflection within `max_deflection` (default `float("inf")`,
under which any deflection passes), run only when the `deflection` key is
present. -/
def deflectionCheck (m : MeasuredValues) : Option CheckStatus :=
  match m.deflection with
  | none => none
  | some d =>
    some (match m.max_deflection with
      | none => .pass
      | some mx => if d ≤ mx then .pass else .fail)

/-- Check 3: visual inspection, always run; noted defects give status
`conditional`, not `fail`. -/
def visualCheck (t : Test) : CheckStatus :=
  if defectsNonEmpty t then .conditional else .pass

/-- Check 4: permanent deformation within its limit (default 0.25), run only
when the `permanent_deformation` key is present. -/
def deformationCheck (m : MeasuredValues) : Option CheckStatus :=
  match m.permanent_deformation with
  | none => none
  | some d =>
    some (if d ≤ (m.max_permanent_deformation.getD (25 / 100 : ℚ)) then .pass else .fail)

/-- Check 5: brake test, run only when the `brake_test` key is present. -/
def brakeCheck (m : MeasuredValues) : Option CheckStatus :=
  match m.brake_test with
  | none => none
  | some b => some (if b then .pass else .fail)

/-- Check 6: load indicator accuracy within its tolerance (default 0.5),
run only when the `indicator_accuracy` key is present. -/
def accuracyCheck (m : MeasuredValues) : Option CheckStatus :=
  match m.indicator_accuracy with
  | none => none
  | some a =>
    some (if a ≤ (m.accuracy_tolerance.getD (5 / 10 : ℚ)) then .pass else .fail)

/-- The `details` dictionary of `validate_test_result`: one entry per check
that ran, keeping each entry's `status`. -/
structure ValidationDetails where
  load_check : CheckStatus
  deflection_check : Option CheckStatus
  visual_check : CheckStatus
  deformation_check : Option CheckStatus
  brake_check : Option CheckStatus
  accuracy_check : Option CheckStatus
  deriving DecidableEq

/-- Assemble the validation details of a test, in the order of the source. -/
def mkDetails (t : Test) : ValidationDetails :=
  let m := measuredVals t
  { load_check := loadCheck t
    deflection_check := deflectionCheck m
    visual_check := visualCheck t
    deformation_check := deformationCheck m
    brake_check := brakeCheck m
    accuracy_check := accuracyCheck m }

/-- Contribution of an optional check to `total_checks`: 1 when it ran. -/
def ranCount (o : Option CheckStatus) : ℕ :=
  match o with
  | none => 0
  | some _ => 1

/-- Contribution of a mandatory check to `checks_passed`. -/
def passCount (s : CheckStatus) : ℕ :=
  match s with
  | .pass => 1
  | _ => 0

/-- Contribution of an optional check to `checks_passed`. -/
def optPassCount (o : Option CheckStatus) : ℕ :=
  match o with
  | none => 0
  | some s => passCount s

/-- The `total_checks` counter: the two mandatory checks (load, visual) plus
every optional check that ran. -/
def totalChecks (d : ValidationDetails) : ℕ :=
  2 + ranCount d.deflection_check + ranCount d.deformation_check
    + ranCount d.brake_check + ranCount d.accuracy_check

/-- The `checks_passed` counter: checks whose status is `pass`. -/
def checksPassed (d : ValidationDetails) : ℕ :=
  passCount d.load_check + optPassCount d.deflection_check
    + passCount d.visual_check + optPassCount d.deformation_check
    + optPassCount d.brake_check + optPassCount d.accuracy_check

/-- Whether an optional check reported `fail`. -/
def optIsFail (o : Option CheckStatus) : Bool :=
  match o with
  | some .fail => true
  | _ => false

/-- Python `any(d.get("status") == "fail" for d in details.values())`. -/
def anyFail (d : ValidationDetails) : Bool :=
  decide (d.load_check = .fail) || optIsFail d.deflection_check
    || decide (d.visual_check = .fail) || optIsFail d.deformation_check
    || optIsFail d.brake_check || optIsFail d.accuracy_check

/-- The critical-check override: `load_check`, `brake_check` and
`deformation_check` force an overall FAIL when any of them failed. -/
def criticalFail (d : ValidationDetails) : Bool :=
  decide (d.load_check = .fail) || optIsFail d.brake_check
    || optIsFail d.deformation_check

/-- The `pass_percentage` used to classify the verdict:
`checks_passed / total_checks * 100`, with the source's fallback to 0 for an
empty denominator. -/
def passPct (d : ValidationDetails) : ℚ :=
  if 0 < totalChecks d then (checksPassed d : ℚ) / (totalChecks d : ℚ) * 100 else 0

/-- Verdict derivation of `validate_test_result`: 100% passes give PASS, at
least 75% with no failing check gives CONDITIONAL, anything else FAIL; then
the critical-check override forces FAIL. -/
def overallResult (d : ValidationDetails) : TestResult :=
  let p := passPct d
  let base : TestResult :=
    if p = 100 then .pass
    else if 75 ≤ p ∧ anyFail d = false then .conditional
    else .fail
  if criticalFail d then .fail else base

/-- Python `round(x, 1)` on the pass percentage.  The percentages the
pipeline produces (at most six checks) never land exactly halfway between
two multiples of 1/10, so the tie-breaking convention is irrelevant. -/
def roundTo1 (q : ℚ) : ℚ := (round (q * 10) : ℤ) / 10

/-- Recommendation strings appended by the failing branches, in order. -/
def recommendationList (d : ValidationDetails) : List String :=
  (if decide (d.load_check = .fail) then ["Ensure test load is at least 125% of SWL"] else [])
    ++ (if optIsFail d.deflection_check then
          ["Excessive deflection detected - investigate structural integrity"] else [])
    ++ (if decide (d.visual_check = .conditional) then
          ["Address noted defects before certification"] else [])
    ++ (if optIsFail d.deformation_check then
          ["Permanent deformation exceeds acceptable limits - equipment may be compromised"] else [])
    ++ (if optIsFail d.brake_check then ["Brake system requires immediate attention"] else [])
    ++ (if optIsFail d.accuracy_check then ["Load indicator requires calibration"] else [])

/-- Return value of `validate_test_result`: the verdict, the per-check
details, the summary fields, and the joined recommendations (absent when no
recommendation was produced). -/
structure ValidationOutcome where
  result : TestResult
  details : ValidationDetails
  checks_passed : ℕ
  total_checks : ℕ
  pass_percentage : ℚ
  recommendations : Option String
  deriving DecidableEq

/-- The result validation engine, `validate_test_result` of
`app/services/test_service.py`: runs the check pipeline over the test's
stored fields and derives the verdict and summary.  Pure, like the source. -/
def validate_test_result (t : Test) : ValidationOutcome :=
  let d := mkDetails t
  let recs := recommendationList d
  { result := overallResult d
    details := d
    checks_passed := checksPassed d
    total_checks := totalChecks d
    pass_percentage := roundTo1 (passPct d)
    recommendations := if recs.isEmpty then none else some (String.intercalate "\n" recs) }

/-- The fields of the `Certificate` model (`app/models/certificate.py`) that
the routes and properties read or write.  Dates are day numbers. -/
structure Certificate where
  certificate_number : String
  issue_date : ℤ
  expiry_date : ℤ
  status : CertificateStatus
  notes : Option String
  signed_by : Option String
  inspector_name : Option String
  deriving DecidableEq

/-- The derived validity fact `Certificate.is_valid`: the certificate is
currently valid exactly when its status is `issued` and its expiry date has
not passed (`expiry_date >= date.today()`). -/
def is_valid (c : Certificate) (today : ℤ) : Bool :=
  decide (c.status = CertificateStatus.issued) && decide (c.expiry_date ≥ today)

/-- The derived fact `Certificate.days_until_expiry`:
`(expiry_date - date.today()).days`, a signed day count. -/
def days_until_expiry (c : Certificate) (today : ℤ) : ℤ :=
  c.expiry_date - today

/-- The body of the public verification response built by
`verify_certificate` for a certificate that was found (the fields the
claims are about). -/
structure VerifyResponse where
  valid : Bool
  status : CertificateStatus
  days_until_expiry : ℤ
  deriving DecidableEq

/-- The public verification route `GET /verify/{certificate_number}` of
`app/api/routes/certificates.py`, for a certificate that resolves: reports
`days_until_expiry` only for a valid certificate and 0 otherwise. -/
def verify_certificate (c : Certificate) (today : ℤ) : VerifyResponse :=
  let v := is_valid c today
  { valid := v
    status := c.status
    days_until_expiry := if v then days_until_expiry c today else 0 }

/-- The caller identity fields the certificate routes read. -/
structure User where
  full_name : String
  is_super_admin : Bool
  company_id : ℕ
  deriving DecidableEq

/-- The fields of the `Asset` model (`app/models/asset.py`) that certificate
issuance updates. -/
structure Asset where
  company_id : ℕ
  certificate_expiry_date : Option ℤ
  last_inspection_date : Option ℤ
  next_inspection_date : Option ℤ
  is_deleted : Bool
  deriving DecidableEq

/-- The request schema `CertificateGenerateRequest`
(`app/schemas/certificate.py`). -/
structure CertificateGenerateRequest where
  validity_days : ℤ
  inspector_name : String
  notes : Option String
  deriving DecidableEq

/-- The pydantic bound `validity_days: int = Field(default=365, ge=30,
le=730)`: a generate request is accepted only inside these bounds. -/
def validityDaysAccepted (v : ℤ) : Bool :=
  decide (30 ≤ v) && decide (v ≤ 730)

/-- The successful path of `POST /generate` (`generate_certificate` in
`app/api/routes/certificates.py`) after the asset and access checks: mints
the certificate record in `issued` status signed by the caller and updates
the asset's certification dates.  Returns the certificate with the updated
asset. -/
def generate_certificate (req : CertificateGenerateRequest) (user : User)
    (asset : Asset) (today : ℤ) (cert_number : String) : Certificate × Asset :=
  let issue_date := today
  let expiry_date := issue_date + req.validity_days
  let certificate : Certificate :=
    { certificate_number := cert_number
      issue_date := issue_date
      expiry_date := expiry_date
      status := CertificateStatus.issued
      notes := req.notes
      signed_by := some user.full_name
      inspector_name := some req.inspector_name }
  let asset2 : Asset :=
    { asset with
        certificate_expiry_date := some expiry_date
        last_inspection_date := some issue_date
        next_inspection_date := some (expiry_date - 30) }
  (certificate, asset2)

/-- The revocation route `POST /{certificate_id}/revoke`
(`revoke_certificate` in `app/api/routes/certificates.py`): after the
not-found and tenant-access checks it unconditionally sets the status to
`revoked` and, when a truthy reason is given, appends
`"\nRevoked: {reason}"` to the notes.  The current status is never
consulted. -/
def revoke_certificate (cert : Option Certificate) (user : User)
    (asset_company : ℕ) (reason : Option String) : Except String Certificate :=
  match cert with
  | none => .error "Certificate not found"
  | some c =>
    if !user.is_super_admin && decide (asset_company ≠ user.company_id) then
      .error "Access denied"
    else
      let c2 : Certificate := { c with status := CertificateStatus.revoked }
      let c3 : Certificate :=
        match reason with
        | some r =>
          if r = "" then c2
          else { c2 with notes := some (pyOrStr c2.notes "" ++ "\nRevoked: " ++ r) }
        | none => c2
      .ok c3

/-- Whether an `Except` outcome of a route is a success. -/
def exceptOk (e : Except String Certificate) : Bool :=
  match e with
  | .ok _ => true
  | .error _ => false

/-- Whether the first character list starts the second (SQL
`LIKE "{pfx}%"` on the stored numbers). -/
def charListStarts : List Char → List Char → Bool
  | [], _ => true
  | _ :: _, [] => false
  | p :: ps, c :: cs => p == c && charListStarts ps cs

/-- Python `f"{n:05d}"`-style zero padding used by the numbering service. -/
def zeroPad (w : ℕ) (n : ℕ) : String :=
  let s := toString n
  String.mk (List.replicate (w - s.length) '0') ++ s

/-- The numbering service `generate_certificate_number`
(`app/services/certificate_service.py`): count the stored certificate
numbers starting with `"CERT-{bucket}-"` (the month bucket), then format
`"CERT-{bucket}-{count+1:05d}"`.  The store is the list of already stored
certificate numbers at the moment of the read. -/
def generate_certificate_number (stored : List String) (bucket : String) : String :=
  let pfxStr := "CERT-" ++ bucket ++ "-"
  let count := (stored.filter (fun n => charListStarts pfxStr.data n.data)).length
  pfxStr ++ zeroPad 5 (count + 1)

/-- Two issuance requests racing in the same bucket: both execute the
count query against the same store state before either inserts its row —
the read-then-write interleaving of the count-then-format scheme. -/
def racedPair (stored : List String) (bucket : String) : String × String :=
  (generate_certificate_number stored bucket,
   generate_certificate_number stored bucket)

/-- The same two requests under serialized access: the second request's
count query sees the first request's inserted row. -/
def serializedPair (stored : List String) (bucket : String) : String × String :=
  let n1 := generate_certificate_number stored bucket
  let n2 := generate_certificate_number (n1 :: stored) bucket
  (n1, n2)

/-- The update schema `TestUpdate` (`app/schemas/test.py`): every field
optional, applied only when provided.  Notably `result` can be supplied
directly. -/
structure TestUpdate where
  status : Option TestStatus := none
  result : Option TestResult := none
  safe_working_load : Option ℚ := none
  test_load : Option ℚ := none
  defects_found : Option String := none
  measured_values : Option MeasuredValues := none
  deriving DecidableEq

/-- Application of one provided-or-absent update field to an optional
attribute (pydantic `exclude_unset` plus `setattr`). -/
def updField {α : Type} (new : Option α) (old : Option α) : Option α :=
  match new with
  | some v => some v
  | none => old

/-- The creation route `POST /tests` (`create_test` in
`app/api/routes/tests.py`): a new test starts `scheduled` with a `pending`
result and is not validated. -/
def create_test (number : String) (swl tl pct : Option ℚ) : Test :=
  { test_number := number
    status := TestStatus.scheduled
    result := TestResult.pending
    safe_working_load := swl
    test_load := tl
    test_load_percentage := pct
    measured_values := none
    defects_found := none
    is_validated := false
    validated_by := none }

/-- The field-submission route `POST /tests/submit` (`submit_test_results`
in `app/api/routes/tests.py`): creates the test directly `completed`
(the `TestSubmit` schema carries no `test_load_percentage`), then runs the
automatic validation and stamps the result. -/
def submit_test_results (number : String) (swl tl : ℚ)
    (mv : Option MeasuredValues) (defects : Option String) : Test :=
  let t : Test :=
    { test_number := number
      status := TestStatus.completed
      result := TestResult.pending
      safe_working_load := some swl
      test_load := some tl
      test_load_percentage := none
      measured_values := mv
      defects_found := defects
      is_validated := false
      validated_by := none }
  let v := validate_test_result t
  { t with
      result := v.result
      is_validated := true
      validated_by := some "System Auto-Validation" }

/-- The update route `PUT /tests/{test_id}` (`update_test` in
`app/api/routes/tests.py`): applies every provided field with `setattr`,
with no invariant check linking `result` to `is_validated`. -/
def update_test (t : Test) (u : TestUpdate) : Test :=
  { t with
      status := u.status.getD t.status
      result := u.result.getD t.result
      safe_working_load := updField u.safe_working_load t.safe_working_load
      test_load := updField u.test_load t.test_load
      defects_found := updField u.defects_found t.defects_found
      measured_values := updField u.measured_values t.measured_values }

/-- The manual validation route `POST /tests/{test_id}/validate`
(`validate_test` in `app/api/routes/tests.py`): runs the validation engine
and stamps the result, with no check that the test's status is
`completed`. -/
def validate_test (t : Test) (validator : String) : Test :=
  let v := validate_test_result t
  { t with
      result := v.result
      is_validated := true
      validated_by := some validator }

/-! Basic unfolding facts about `validate_test_result`, shared by the proofs
below. -/

theorem validate_result_eq (t : Test) :
    (validate_test_result t).result = overallResult (mkDetails t) := rfl

theorem validate_details_eq (t : Test) :
    (validate_test_result t).details = mkDetails t := rfl

theorem validate_passed_eq (t : Test) :
    (validate_test_result t).checks_passed = checksPassed (mkDetails t) := rfl

theorem validate_total_eq (t : Test) :
    (validate_test_result t).total_checks = totalChecks (mkDetails t) := rfl

theorem validate_pct_eq (t : Test) :
    (validate_test_result t).pass_percentage = roundTo1 (passPct (mkDetails t)) := rfl

theorem passCount_le_one (s : CheckStatus) : passCount s ≤ 1 := by
  cases s <;> simp [passCount]

theorem optPassCount_le_ranCount (o : Option CheckStatus) :
    optPassCount o ≤ ranCount o := by
  cases o with
  | none => simp [optPassCount, ranCount]
  | some s => simpa [optPassCount, ranCount] using passCount_le_one s

theorem two_le_totalChecks (d : ValidationDetails) : 2 ≤ totalChecks d := by
  unfold totalChecks
  omega

theorem checksPassed_le_totalChecks (d : ValidationDetails) :
    checksPassed d ≤ totalChecks d := by
  have h1 := passCount_le_one d.load_check
  have h2 := passCount_le_one d.visual_check
  have h3 := optPassCount_le_ranCount d.deflection_check
  have h4 := optPassCount_le_ranCount d.deformation_check
  have h5 := optPassCount_le_ranCount d.brake_check
  have h6 := optPassCount_le_ranCount d.accuracy_check
  unfold checksPassed totalChecks
  omega

/-- The critical-check override forces the overall verdict to FAIL. -/
theorem overallResult_of_criticalFail (d : ValidationDetails)
    (h : criticalFail d = true) : overallResult d = TestResult.fail := by
  unfold overallResult
  simp [h]

/-- C1: for every certificate, `is_valid` is true iff the status is `issued`
and the expiry date is on or after the evaluation day; for every other
status it is false regardless of the date; and a stored-`issued`
certificate whose expiry date has passed still has status `issued` but
reports `is_valid = false`. -/
theorem c1_is_valid_characterization (c : Certificate) (today : ℤ) :
    (is_valid c today = true ↔
      c.status = CertificateStatus.issued ∧ today ≤ c.expiry_date)
    ∧ (c.status ≠ CertificateStatus.issued → is_valid c today = false)
    ∧ (c.status = CertificateStatus.issued → c.expiry_date < today →
        c.status = CertificateStatus.issued ∧ is_valid c today = false) := by
  unfold is_valid
  refine ⟨?_, ?_, ?_⟩
  · simp [ge_iff_le]
  · intro h
    simp [h]
  · intro hs hlt
    refine ⟨hs, ?_⟩
    simp [hs, ge_iff_le]
    omega

/-- C2: a test load below 95% of `swl * (test_load_percentage or 125) / 100`
fails the load check and forces the overall verdict to FAIL; more generally
a failing load, brake or deformation check forces FAIL regardless of the
percentage rule. -/
theorem c2_critical_override (t : Test) :
    (pyOrQ t.test_load 0 <
        pyOrQ t.safe_working_load 0 * pyOrQ t.test_load_percentage 125 / 100 * (95 / 100 : ℚ)
      → (validate_test_result t).result = TestResult.fail)
    ∧ ((validate_test_result t).details.load_check = CheckStatus.fail
        ∨ (validate_test_result t).details.brake_check = some CheckStatus.fail
        ∨ (validate_test_result t).details.deformation_check = some CheckStatus.fail
      → (validate_test_result t).result = TestResult.fail) := by
  have hcrit : ∀ h : criticalFail (mkDetails t) = true,
      (validate_test_result t).result = TestResult.fail := fun h => by
    rw [validate_result_eq]
    exact overallResult_of_criticalFail _ h
  constructor
  · intro hlow
    have hload : loadCheck t = CheckStatus.fail := by
      unfold loadCheck
      rw [if_neg]
      exact not_le.mpr hlow
    apply hcrit
    unfold criticalFail mkDetails
    simp [hload]
  · intro hfail
    apply hcrit
    rw [validate_details_eq] at hfail
    unfold criticalFail
    rcases hfail with h | h | h <;> simp [h, optIsFail]

/-- Witness for C2 at a concrete input: a test with load 10 against an
expected proof load of 12.5 is below the 95% tolerance line and FAILs. -/
theorem c2_critical_override_witness :
    (validate_test_result
      { test_number := "TST-20250101-0003"
        status := TestStatus.completed
        result := TestResult.pending
        safe_working_load := some 10
        test_load := some 10
        test_load_percentage := none
        measured_values := none
        defects_found := none
        is_validated := false
        validated_by := none }).result = TestResult.fail :=
  (c2_critical_override _).1 (by decide)

/-- C8: `days_until_expiry` is the exact signed day difference
`expiry_date - today` (0 on the expiry day, -1 one day after), and the
public verification response clamps it to 0 whenever the certificate is not
valid. -/
theorem c8_days_until_expiry (c : Certificate) (today : ℤ) :
    days_until_expiry c today = c.expiry_date - today
    ∧ (c.expiry_date = today → days_until_expiry c today = 0)
    ∧ (c.expiry_date = today - 1 → days_until_expiry c today = -1)
    ∧ (is_valid c today = false →
        (verify_certificate c today).days_until_expiry = 0) := by
  refine ⟨rfl, ?_, ?_, ?_⟩
  · intro h
    unfold days_until_expiry
    omega
  · intro h
    unfold days_until_expiry
    omega
  · intro h
    unfold verify_certificate
    simp [h]

/-- C10: the load and visual checks are counted unconditionally, so
`total_checks` is always at least 2, `checks_passed` never exceeds
`total_checks`, and the zero-denominator fallback of the pass-percentage
computation is unreachable: `passPct` always equals the division branch. -/
theorem c10_mandatory_checks (t : Test) :
    2 ≤ (validate_test_result t).total_checks
    ∧ (validate_test_result t).checks_passed ≤ (validate_test_result t).total_checks
    ∧ passPct (mkDetails t)
        = (checksPassed (mkDetails t) : ℚ) / (totalChecks (mkDetails t) : ℚ) * 100 := by
  rw [validate_total_eq, validate_passed_eq]
  refine ⟨two_le_totalChecks _, checksPassed_le_totalChecks _, ?_⟩
  unfold passPct
  rw [if_pos]
  have := two_le_totalChecks (mkDetails t)
  omega

/-! Shape lemmas: the optional checks of the pipeline only ever report
`pass` or `fail`, never `conditional`. -/

theorem deflectionCheck_cases (m : MeasuredValues) :
    deflectionCheck m = none ∨ deflectionCheck m = some CheckStatus.pass
      ∨ deflectionCheck m = some CheckStatus.fail := by
  obtain ⟨defl, maxd, pd, maxpd, bt, ia, tol⟩ := m
  unfold deflectionCheck
  rcases defl with _ | d
  · exact Or.inl rfl
  · rcases maxd with _ | mx
    · exact Or.inr (Or.inl rfl)
    · by_cases h : d ≤ mx
      · exact Or.inr (Or.inl (by simp [h]))
      · exact Or.inr (Or.inr (by simp [h]))

theorem deformationCheck_cases (m : MeasuredValues) :
    deformationCheck m = none ∨ deformationCheck m = some CheckStatus.pass
      ∨ deformationCheck m = some CheckStatus.fail := by
  obtain ⟨defl, maxd, pd, maxpd, bt, ia, tol⟩ := m
  unfold deformationCheck
  rcases pd with _ | d
  · exact Or.inl rfl
  · by_cases h : d ≤ (Option.getD maxpd (25 / 100 : ℚ))
    · exact Or.inr (Or.inl (by simp [h]))
    · exact Or.inr (Or.inr (by simp [h]))

theorem brakeCheck_cases (m : MeasuredValues) :
    brakeCheck m = none ∨ brakeCheck m = some CheckStatus.pass
      ∨ brakeCheck m = some CheckStatus.fail := by
  obtain ⟨defl, maxd, pd, maxpd, bt, ia, tol⟩ := m
  unfold brakeCheck
  rcases bt with _ | b
  · exact Or.inl rfl
  · cases b
    · exact Or.inr (Or.inr (by simp))
    · exact Or.inr (Or.inl (by simp))

theorem accuracyCheck_cases (m : MeasuredValues) :
    accuracyCheck m = none ∨ accuracyCheck m = some CheckStatus.pass
      ∨ accuracyCheck m = some CheckStatus.fail := by
  obtain ⟨defl, maxd, pd, maxpd, bt, ia, tol⟩ := m
  unfold accuracyCheck
  rcases ia with _ | a
  · exact Or.inl rfl
  · by_cases h : a ≤ (Option.getD tol (5 / 10 : ℚ))
    · exact Or.inr (Or.inl (by simp [h]))
    · exact Or.inr (Or.inr (by simp [h]))

/-- Verdict derivation when the visual check is `conditional` and every
other check that ran passed: CONDITIONAL needs the pass percentage to reach
75%, which happens exactly when at least four checks ran. -/
theorem overallResult_visual_conditional (d : ValidationDetails)
    (hl : d.load_check = CheckStatus.pass)
    (hv : d.visual_check = CheckStatus.conditional)
    (h1 : d.deflection_check = none ∨ d.deflection_check = some CheckStatus.pass)
    (h2 : d.deformation_check = none ∨ d.deformation_check = some CheckStatus.pass)
    (h3 : d.brake_check = none ∨ d.brake_check = some CheckStatus.pass)
    (h4 : d.accuracy_check = none ∨ d.accuracy_check = some CheckStatus.pass) :
    overallResult d
      = if 4 ≤ totalChecks d then TestResult.conditional else TestResult.fail := by
  obtain ⟨lc, dc, vc, fc, bc, ac⟩ := d
  simp only at hl hv h1 h2 h3 h4
  subst hl hv
  rcases h1 with h1 | h1 <;> rcases h2 with h2 | h2 <;> rcases h3 with h3 | h3 <;>
    rcases h4 with h4 | h4 <;> subst h1 h2 h3 h4 <;> decide

/-- Concrete input refuting C3 as stated: a completed test with a passing
load check, no optional measurement keys and a non-empty `defects_found`. -/
def c3Test : Test :=
  { test_number := "TST-20250101-0001"
    status := TestStatus.completed
    result := TestResult.pending
    safe_working_load := some 10
    test_load := some 13
    test_load_percentage := none
    measured_values := none
    defects_found := some "crack"
    is_validated := false
    validated_by := none }

/-- C3 counterexample: on `c3Test` the visual check is `conditional` and
every other check that runs (the load check alone) passes, yet the overall
verdict is FAIL, not CONDITIONAL — only two checks run, so the pass
percentage is 50%, below the 75% line of the CONDITIONAL rule. -/
theorem c3_counterexample :
    (validate_test_result c3Test).details.load_check = CheckStatus.pass
    ∧ (validate_test_result c3Test).details.visual_check = CheckStatus.conditional
    ∧ (validate_test_result c3Test).result = TestResult.fail
    ∧ (validate_test_result c3Test).result ≠ TestResult.conditional := by
  decide

/-- C3 as amended: for every test whose `defects_found` is non-empty while
every other check that runs passes, the visual check reports `conditional`
and the overall verdict is CONDITIONAL exactly when at least four checks
ran (at least two optional measurements present); with only the two
mandatory checks — in particular a passing load check and no optional
measurement keys — the verdict is FAIL. -/
theorem c3_defects_verdict (t : Test)
    (hd : defectsNonEmpty t = true)
    (hl : (mkDetails t).load_check = CheckStatus.pass)
    (h1 : (mkDetails t).deflection_check ≠ some CheckStatus.fail)
    (h2 : (mkDetails t).deformation_check ≠ some CheckStatus.fail)
    (h3 : (mkDetails t).brake_check ≠ some CheckStatus.fail)
    (h4 : (mkDetails t).accuracy_check ≠ some CheckStatus.fail) :
    (validate_test_result t).details.visual_check = CheckStatus.conditional
    ∧ (validate_test_result t).result
        = if 4 ≤ (validate_test_result t).total_checks then TestResult.conditional
          else TestResult.fail := by
  have hv : (mkDetails t).visual_check = CheckStatus.conditional := by
    unfold mkDetails visualCheck
    simp [hd]
  have g1 : (mkDetails t).deflection_check = none
      ∨ (mkDetails t).deflection_check = some CheckStatus.pass := by
    rcases deflectionCheck_cases (measuredVals t) with h | h | h <;>
      simp [mkDetails, h] at h1 ⊢
  have g2 : (mkDetails t).deformation_check = none
      ∨ (mkDetails t).deformation_check = some CheckStatus.pass := by
    rcases deformationCheck_cases (measuredVals t) with h | h | h <;>
      simp [mkDetails, h] at h2 ⊢
  have g3 : (mkDetails t).brake_check = none
      ∨ (mkDetails t).brake_check = some CheckStatus.pass := by
    rcases brakeCheck_cases (measuredVals t) with h | h | h <;>
      simp [mkDetails, h] at h3 ⊢
  have g4 : (mkDetails t).accuracy_check = none
      ∨ (mkDetails t).accuracy_check = some CheckStatus.pass := by
    rcases accuracyCheck_cases (measuredVals t) with h | h | h <;>
      simp [mkDetails, h] at h4 ⊢
  rw [validate_details_eq, validate_result_eq, validate_total_eq]
  exact ⟨hv, overallResult_visual_conditional _ hl hv g1 g2 g3 g4⟩

/-- Witness for the amended C3 at the concrete input `c3Test`. -/
theorem c3_defects_verdict_witness :
    (validate_test_result c3Test).details.visual_check = CheckStatus.conditional
    ∧ (validate_test_result c3Test).result
        = if 4 ≤ (validate_test_result c3Test).total_checks then TestResult.conditional
          else TestResult.fail :=
  c3_defects_verdict c3Test (by decide) (by decide) (by decide) (by decide)
    (by decide) (by decide)

/-- C4: a test meeting the full proof load with the default percentage, no
optional measurement keys and no defects gets verdict PASS with exactly the
two mandatory checks run and passed (pass percentage 100). -/
theorem c4_clean_pass (t : Test)
    (hswl : 0 ≤ pyOrQ t.safe_working_load 0)
    (hpct : pyOrQ t.test_load_percentage 125 = 125)
    (hload : pyOrQ t.safe_working_load 0 * 125 / 100 ≤ pyOrQ t.test_load 0)
    (hdefl : (measuredVals t).deflection = none)
    (hdefo : (measuredVals t).permanent_deformation = none)
    (hbrake : (measuredVals t).brake_test = none)
    (hacc : (measuredVals t).indicator_accuracy = none)
    (hdefects : defectsNonEmpty t = false) :
    (validate_test_result t).result = TestResult.pass
    ∧ (validate_test_result t).checks_passed = 2
    ∧ (validate_test_result t).total_checks = 2
    ∧ (validate_test_result t).pass_percentage = 100 := by
  have hload' : loadCheck t = CheckStatus.pass := by
    unfold loadCheck
    rw [hpct, if_pos]
    nlinarith [hswl, hload]
  have hD : mkDetails t
      = { load_check := CheckStatus.pass
          deflection_check := none
          visual_check := CheckStatus.pass
          deformation_check := none
          brake_check := none
          accuracy_check := none } := by
    unfold mkDetails visualCheck deflectionCheck deformationCheck brakeCheck accuracyCheck
    simp [hdefl, hdefo, hbrake, hacc, hload', hdefects]
  rw [validate_result_eq, validate_passed_eq, validate_total_eq, validate_pct_eq, hD]
  refine ⟨by decide, by decide, by decide, by decide⟩

/-- Concrete input for the C4 witness: SWL 10, applied load 12.5, default
percentage, no optional measurements, no defects. -/
def c4Test : Test :=
  { test_number := "TST-20250101-0002"
    status := TestStatus.completed
    result := TestResult.pending
    safe_working_load := some 10
    test_load := some (25 / 2)
    test_load_percentage := none
    measured_values := none
    defects_found := none
    is_validated := false
    validated_by := none }

/-- Witness for C4 at the concrete input `c4Test`. -/
theorem c4_clean_pass_witness :
    (validate_test_result c4Test).result = TestResult.pass
    ∧ (validate_test_result c4Test).checks_passed = 2
    ∧ (validate_test_result c4Test).total_checks = 2
    ∧ (validate_test_result c4Test).pass_percentage = 100 :=
  c4_clean_pass c4Test (by decide) (by decide) (by decide) (by decide) (by decide)
    (by decide) (by decide) (by decide)

/-- C5: a certificate-generation request is accepted only with
`validity_days` between 30 and 730, and the created certificate is issued
today, expires `validity_days` later, is signed by the calling user, while
the asset's certification dates are updated to match (next inspection 30
days before expiry). -/
theorem c5_generate_certificate (req : CertificateGenerateRequest) (user : User)
    (asset : Asset) (today : ℤ) (num : String)
    (hv : validityDaysAccepted req.validity_days = true) :
    30 ≤ req.validity_days ∧ req.validity_days ≤ 730
    ∧ (generate_certificate req user asset today num).1.issue_date = today
    ∧ (generate_certificate req user asset today num).1.expiry_date
        = today + req.validity_days
    ∧ (generate_certificate req user asset today num).1.status
        = CertificateStatus.issued
    ∧ (generate_certificate req user asset today num).1.signed_by
        = some user.full_name
    ∧ (generate_certificate req user asset today num).2.certificate_expiry_date
        = some (generate_certificate req user asset today num).1.expiry_date
    ∧ (generate_certificate req user asset today num).2.last_inspection_date
        = some (generate_certificate req user asset today num).1.issue_date
    ∧ (generate_certificate req user asset today num).2.next_inspection_date
        = some ((generate_certificate req user asset today num).1.expiry_date - 30) := by
  unfold validityDaysAccepted at hv
  simp only [Bool.and_eq_true, decide_eq_true_eq] at hv
  exact ⟨hv.1, hv.2, rfl, rfl, rfl, rfl, rfl, rfl, rfl⟩

/-- Concrete generate request for the C5 witness. -/
def c5Req : CertificateGenerateRequest :=
  { validity_days := 365, inspector_name := "Jane Doe", notes := none }

/-- Concrete calling user for the C5 witness. -/
def c5User : User :=
  { full_name := "Jane Doe", is_super_admin := false, company_id := 1 }

/-- Concrete asset for the C5 witness. -/
def c5Asset : Asset :=
  { company_id := 1
    certificate_expiry_date := none
    last_inspection_date := none
    next_inspection_date := none
    is_deleted := false }

/-- Witness for C5 at a concrete accepted request (365 validity days). -/
theorem c5_generate_certificate_witness :
    (generate_certificate c5Req c5User c5Asset 20000 "CERT-202610-00001").1.expiry_date
        = 20000 + (365 : ℤ)
    ∧ (generate_certificate c5Req c5User c5Asset 20000 "CERT-202610-00001").1.status
        = CertificateStatus.issued
    ∧ (generate_certificate c5Req c5User c5Asset 20000 "CERT-202610-00001").2.next_inspection_date
        = some ((generate_certificate c5Req c5User c5Asset 20000
            "CERT-202610-00001").1.expiry_date - 30) :=
  have h := c5_generate_certificate c5Req c5User c5Asset 20000 "CERT-202610-00001"
    (by decide)
  ⟨h.2.2.2.1, h.2.2.2.2.1, h.2.2.2.2.2.2.2.2⟩

/-- C6 amended: revoking a certificate whose lookup and tenant check
succeed sets its status to `revoked`, appends the reason to its notes, and
makes `is_valid` false; the routes offer no transition out of `revoked` to
any other status, but a subsequent revoke attempt on the same certificate
is accepted, not rejected: it succeeds again, leaving the status `revoked`
and appending the reason once more. -/
theorem c6_revocation (c : Certificate) (user : User) (ac : ℕ) (r : String)
    (today : ℤ)
    (hacc : (!user.is_super_admin && decide (ac ≠ user.company_id)) = false)
    (hr : r ≠ "") :
    ∃ c2, revoke_certificate (some c) user ac (some r) = Except.ok c2
      ∧ c2.status = CertificateStatus.revoked
      ∧ c2.notes = some (pyOrStr c.notes "" ++ "\nRevoked: " ++ r)
      ∧ is_valid c2 today = false
      ∧ ∃ c3, revoke_certificate (some c2) user ac (some r) = Except.ok c3
          ∧ c3.status = CertificateStatus.revoked := by
  have h1 : revoke_certificate (some c) user ac (some r)
      = Except.ok { c with
                    status := CertificateStatus.revoked,
                    notes := some (pyOrStr c.notes "" ++ "\nRevoked: " ++ r) } := by
    unfold revoke_certificate
    rw [hacc]
    simp [hr]
  refine ⟨_, h1, rfl, rfl, by simp [is_valid], ?_⟩
  have hne : pyOrStr c.notes "" ++ "\nRevoked: " ++ r ≠ "" := by
    intro h
    have hlen := congrArg String.length h
    rw [String.length_append, String.length_append] at hlen
    have h10 : ("\nRevoked: " : String).length = 10 := rfl
    have h0 : ("" : String).length = 0 := rfl
    omega
  have h2 : revoke_certificate
      (some { c with
              status := CertificateStatus.revoked,
              notes := some (pyOrStr c.notes "" ++ "\nRevoked: " ++ r) }) user ac (some r)
      = Except.ok { c with
                    status := CertificateStatus.revoked,
                    notes := some (pyOrStr c.notes "" ++ "\nRevoked: " ++ r
                      ++ "\nRevoked: " ++ r) } := by
    unfold revoke_certificate
    rw [hacc]
    have hsome : ∀ s : String, pyOrStr (some s) "" = if s = "" then "" else s :=
      fun _ => rfl
    have hred : pyOrStr (some (pyOrStr c.notes "" ++ "\nRevoked: " ++ r)) ""
        = pyOrStr c.notes "" ++ "\nRevoked: " ++ r := by
      rw [hsome, if_neg hne]
    simp [hr, hred]
  exact ⟨_, h2, rfl⟩

/-- Concrete already-revoked certificate for the C6 counterexample. -/
def c6Revoked : Certificate :=
  { certificate_number := "CERT-202501-00001"
    issue_date := 0
    expiry_date := 365
    status := CertificateStatus.revoked
    notes := some "\nRevoked: found crack"
    signed_by := some "Inspector A"
    inspector_name := some "Inspector A" }

/-- Concrete calling user for the C6 counterexample and witness. -/
def c6User : User :=
  { full_name := "Inspector A", is_super_admin := false, company_id := 1 }

/-- C6 counterexample: a revoke attempt on an already-revoked certificate
succeeds (the route never consults the current status), so a subsequent
revoke attempt is not rejected as the claim states. -/
theorem c6_counterexample :
    c6Revoked.status = CertificateStatus.revoked
    ∧ exceptOk (revoke_certificate (some c6Revoked) c6User 1 (some "found crack"))
        = true := by
  decide

/-- Concrete issued certificate for the C6 witness. -/
def c6Issued : Certificate :=
  { certificate_number := "CERT-202501-00001"
    issue_date := 0
    expiry_date := 365
    status := CertificateStatus.issued
    notes := none
    signed_by := some "Inspector A"
    inspector_name := some "Inspector A" }

/-- Witness for the amended C6 at a concrete issued certificate and the
reason "found crack". -/
theorem c6_revocation_witness :
    ∃ c2, revoke_certificate (some c6Issued) c6User 1 (some "found crack")
        = Except.ok c2
      ∧ c2.status = CertificateStatus.revoked
      ∧ c2.notes = some (pyOrStr c6Issued.notes "" ++ "\nRevoked: " ++ "found crack")
      ∧ is_valid c2 100 = false
      ∧ ∃ c3, revoke_certificate (some c2) c6User 1 (some "found crack") = Except.ok c3
          ∧ c3.status = CertificateStatus.revoked :=
  c6_revocation c6Issued c6User 1 "found crack" 100 (by decide) (by decide)

/-- A test as created scheduled by `POST /tests`, used by the C7
counterexample. -/
def c7Scheduled : Test :=
  create_test "TST-20250101-0001" (some 10) (some 13) (some 125)

/-- C7 counterexample: the update route accepts a direct `result` change on
a scheduled, unvalidated test, leaving a non-pending result with
`is_validated = false`; and the validate route runs validation on that same
test although its status is not `completed`. -/
theorem c7_counterexample :
    (update_test c7Scheduled { result := some TestResult.pass }).result
        ≠ TestResult.pending
    ∧ (update_test c7Scheduled { result := some TestResult.pass }).is_validated
        = false
    ∧ c7Scheduled.status ≠ TestStatus.completed
    ∧ (validate_test c7Scheduled "Inspector A").is_validated = true := by
  decide

/-- C7 amended: the create and field-submit operations maintain the
result/validation invariant (a created test is `pending` and unvalidated; a
field-submitted test is `completed` and validated when its result is
stamped), and manual validation always sets `is_validated` alongside the
result; but the update operation can set a non-pending result without
validation, and validation is not restricted to `completed` tests. -/
theorem c7_invariant_per_operation (n : String) (swl tl : ℚ) (pct : Option ℚ)
    (mv : Option MeasuredValues) (df : Option String) (t : Test) (vn : String) :
    ((create_test n (some swl) (some tl) pct).result = TestResult.pending
      ∧ (create_test n (some swl) (some tl) pct).is_validated = false)
    ∧ ((submit_test_results n swl tl mv df).status = TestStatus.completed
      ∧ (submit_test_results n swl tl mv df).is_validated = true)
    ∧ (validate_test t vn).is_validated = true :=
  ⟨⟨rfl, rfl⟩, ⟨rfl, rfl⟩, rfl⟩

/-- C9: the count-then-format numbering scheme is collision-free only under
serialized access.  Under the concurrent schedule in which both requests
run their count query before either inserts, the two minted certificate
numbers are identical (1 distinct value for 2 requests), while the
serialized schedule yields distinct numbers. -/
theorem c9_numbering_race :
    (racedPair [] "202610").1 = (racedPair [] "202610").2
    ∧ (racedPair [] "202610").1 = "CERT-202610-00001"
    ∧ (serializedPair [] "202610").1 ≠ (serializedPair [] "202610").2 := by
  exact ⟨rfl, rfl, by decide⟩

end CertiTrack
